import Mathlib

/-!
Shallow embedding of `src/src_C/n_queens_counter.c`, an n-queens
backtracking counter (EWD316 style).  The C board stores the size, a
`queens` array (row per column), three conflict arrays of 0/1 ints
(`column`, `diagonal_up`, `diagonal_down`), the current column `col_j`,
a placement counter and a solution counter.

Modelling decisions, each visible in the definitions below:

* Conflict entries are `Nat` (the C ints 0/1); the bitwise AND of
  `square_is_free` is `Nat` land, and C truth is `≠ 0`.
* `col_j` is a C `int`; it is modelled as `Nat`.  On every execution of
  the program `col_j` stays in `[0, n_size]` (each decrement in
  `remove_queen` is paired with a preceding increment in `set_queen`),
  so the truncation of `Nat` subtraction is never exercised.
* The C up-diagonal index `(n_size - 1) + (col_j - row_i)` is `int`
  arithmetic; it is modelled as the left-associated `Nat` expression
  `n_size - 1 + col_j - row_i`, which is equal to the C value whenever
  that value is non-negative — in particular for every access the
  search performs (`row_i < n_size`), as the bounds theorem shows.
* Array reads out of range yield the default 0 and writes out of range
  are no-ops (`List.getD` / `List.set`); the bounds theorem shows the
  search's accesses are all in range.
* The recursion of `place_next_queen` is modelled with explicit fuel.
  The C recursion starting from `col_j = 0` has depth at most `n_size`
  (it never recurses once `col_j = n_size`), so the top-level call in
  `solve` / `run_with` uses fuel `n_size`, making the fuel-exhaustion
  branch unreachable.
* `malloc` failure and `free` (`smash_board`) are environmental and are
  not modelled; `initialize_board` keeps the `n_queens < 1` check and
  the messages produced by `allocation_error(0)` — including the second
  message that the missing `break` in `case 0` lets fall through.
* `placements` (C `uint64_t`) and `solutions` (C `int`) are modelled as
  `Nat` without a wraparound: no property settled here evaluates the
  search beyond size 8, and the counters there stay below 2^12, far
  from either width.
-/

namespace NQueens

/-- The `struct chess_board` of the C source.  Conflict entries are the
C ints 0/1. -/
structure Board where
  n_size : Nat
  queens : List Nat
  column : List Nat
  diagonal_up : List Nat
  diagonal_down : List Nat
  col_j : Nat
  placements : Nat
  solutions : Nat
  deriving DecidableEq, Repr

/-- C `square_is_free`: bitwise AND of the row entry, the up-diagonal
entry at `(n_size - 1) + (col_j - row_i)` and the down-diagonal entry at
`col_j + row_i`.  A pure query; non-zero means the square is free. -/
def square_is_free (b : Board) (row_i : Nat) : Nat :=
  (b.column.getD row_i 0 &&&
   b.diagonal_up.getD (b.n_size - 1 + b.col_j - row_i) 0) &&&
   b.diagonal_down.getD (b.col_j + row_i) 0

/-- C `set_queen`: record the row, occupy row and both diagonals,
advance `col_j`, count the placement. -/
def set_queen (b : Board) (row_i : Nat) : Board :=
  { b with
    queens := b.queens.set b.col_j row_i
    column := b.column.set row_i 0
    diagonal_up := b.diagonal_up.set (b.n_size - 1 + b.col_j - row_i) 0
    diagonal_down := b.diagonal_down.set (b.col_j + row_i) 0
    col_j := b.col_j + 1
    placements := b.placements + 1 }

/-- C `remove_queen`: decrement `col_j` first, then free the diagonals
at indices computed from the decremented column, then free the row. -/
def remove_queen (b : Board) (row_i : Nat) : Board :=
  { b with
    col_j := b.col_j - 1
    diagonal_down := b.diagonal_down.set (b.col_j - 1 + row_i) 1
    diagonal_up := b.diagonal_up.set (b.n_size - 1 + (b.col_j - 1) - row_i) 1
    column := b.column.set row_i 1 }

/-- One iteration of the row loop inside C `place_next_queen`: if the
square is free, place the queen, count a solution when the board became
full or recurse otherwise, then backtrack. -/
def rowStep (rec : Board → Board) (bb : Board) (row_i : Nat) : Board :=
  if square_is_free bb row_i ≠ 0 then
    let b1 := set_queen bb row_i
    let b2 := if b1.col_j = b1.n_size
              then { b1 with solutions := b1.solutions + 1 }
              else rec b1
    remove_queen b2 row_i
  else bb

/-- C `place_next_queen`: the `for` loop over `row_i` from 0 to
`n_size - 1`, with fuel bounding the recursion depth.  The C recursion
from `col_j = 0` has depth at most `n_size`, so fuel `n_size` makes the
fuel-exhaustion branch unreachable in `solve`. -/
def place_next_queen : Nat → Board → Board
  | 0, b => b
  | fuel + 1, b => (List.range b.n_size).foldl (rowStep (place_next_queen fuel)) b

/-- The board produced by C `initialize_board` on a valid size: the two
initialization loops together set every conflict entry to 1 and every
`queens` entry to 0. -/
def fresh_board (n : Nat) : Board :=
  { n_size := n
    queens := List.replicate n 0
    column := List.replicate n 1
    diagonal_up := List.replicate (2 * n - 1) 1
    diagonal_down := List.replicate (2 * n - 1) 1
    col_j := 0
    placements := 0
    solutions := 0 }

/-- Run the whole search of `main` on a freshly created board. -/
def solve (n : Nat) : Board :=
  place_next_queen n (fresh_board n)

/-- C `allocation_error`: the messages written to `stderr` for each
error code, plus the `EXIT_FAILURE` status.  `case 0` has no `break`,
so code 0 falls through into `case 1` and produces two messages. -/
def allocation_error (error_code : Nat) : List String × Nat :=
  (match error_code with
   | 0 => ["The number of queens must be greater than 0.\n",
           "Failed to allocate memory for chess board.\n"]
   | 1 => ["Failed to allocate memory for chess board.\n"]
   | 2 => ["Failed to allocate memory for chess queens.\n"]
   | 3 => ["Failed to allocate memory for column attacks.\n"]
   | 4 => ["Failed to allocate memory for diagonal up attacks.\n"]
   | 5 => ["Failed to allocate memory for diagonal down attacks.\n"]
   | _ => [],
   1)

/-- C `initialize_board` with its `n_queens < 1` validation.  `malloc`
failures are environmental and not modelled; on success the board of
`fresh_board` results. -/
def initialize_board (n_queens : Int) : Except (List String × Nat) Board :=
  if n_queens < 1 then Except.error (allocation_error 0)
  else Except.ok (fresh_board n_queens.toNat)

/-- C `print_counts`: the exact `fprintf` payload written to `stdout`. -/
def print_counts (b : Board) : String :=
  "The " ++ toString b.n_size ++ "-Queens problem required " ++
  toString b.placements ++ " queen placements to find all " ++
  toString b.solutions ++ " solutions\n"

/-- Observable outcome of one process run: `stdout` writes, `stderr`
writes, exit status (`EXIT_SUCCESS` = 0, `EXIT_FAILURE` = 1). -/
structure RunResult where
  stdout : List String
  stderr : List String
  exitCode : Nat
  deriving DecidableEq, Repr

/-- The run of `main` on an already-parsed size: construct the board,
search, print the counts; on a validation failure the process exits
with `EXIT_FAILURE` having produced no `stdout` line. -/
def run_with (n : Int) : RunResult :=
  match initialize_board n with
  | Except.error e => ⟨[], e.1, e.2⟩
  | Except.ok b => ⟨[print_counts (place_next_queen b.n_size b)], [], 0⟩

/-- Whitespace test of C `atoi` (`isspace` in the "C" locale). -/
def isSpaceChar (c : Char) : Bool :=
  c == ' ' || c == '\t' || c == '\n' || c == '\x0b' || c == '\x0c' || c == '\r'

/-- Digit-prefix accumulator of C `atoi`. -/
def digitsVal : List Char → Nat → Nat
  | [], acc => acc
  | c :: cs, acc =>
    if c.isDigit then digitsVal cs (10 * acc + (c.toNat - 48)) else acc

/-- C `atoi`: skip leading whitespace, read an optional sign, convert
the longest digit prefix; a string with no digit prefix yields 0. -/
def atoi (s : String) : Int :=
  match s.data.dropWhile isSpaceChar with
  | '-' :: rest => -(digitsVal rest 0 : Int)
  | '+' :: rest => (digitsVal rest 0 : Int)
  | rest => (digitsVal rest 0 : Int)

/-- C `main`: no argument defaults to size 4, otherwise `argv[1]` is
parsed with `atoi`. -/
def run_main (args : List String) : RunResult :=
  match args with
  | [] => run_with 4
  | a :: _ => run_with (atoi a)

/-- Conflict-array entries are the C booleans 0/1. -/
def BoolList (l : List Nat) : Prop :=
  ∀ x ∈ l, x ≤ 1

/-- All three conflict arrays hold only 0/1 entries. -/
def BoolBoard (b : Board) : Prop :=
  BoolList b.column ∧ BoolList b.diagonal_up ∧ BoolList b.diagonal_down

/-- Two boards agree on the size, the current column and all three
conflict arrays (the state that backtracking must restore). -/
def SameState (b1 b2 : Board) : Prop :=
  b1.n_size = b2.n_size ∧ b1.col_j = b2.col_j ∧ b1.column = b2.column ∧
  b1.diagonal_up = b2.diagonal_up ∧ b1.diagonal_down = b2.diagonal_down

/-- A board as produced by `initialize_board` and maintained by the
search: positive size, arrays of the allocated lengths, a current
column within range, and 0/1 conflict entries. -/
def ValidBoard (b : Board) : Prop :=
  1 ≤ b.n_size ∧ b.queens.length = b.n_size ∧ b.column.length = b.n_size ∧
  b.diagonal_up.length = 2 * b.n_size - 1 ∧
  b.diagonal_down.length = 2 * b.n_size - 1 ∧
  b.col_j ≤ b.n_size ∧ BoolBoard b

/-- Snapshot of the 7-queens search after the top-level row loop has
processed row 0 (computed checkpoint used to evaluate `solve 7` in
bounded steps; conflict arrays are restored between top-level rows,
only stale `queens` entries and the counters change). -/
def b7s1 : Board :=
  { n_size := 7, queens := [0, 6, 4, 2, 5, 3, 2],
    column := [1, 1, 1, 1, 1, 1, 1],
    diagonal_up := [1, 1, 1, 1, 1, 1, 1, 1, 1, 1, 1, 1, 1],
    diagonal_down := [1, 1, 1, 1, 1, 1, 1, 1, 1, 1, 1, 1, 1],
    col_j := 0, placements := 72, solutions := 4 }

/-- Snapshot of the 7-queens search after top-level rows 0–1. -/
def b7s2 : Board :=
  { n_size := 7, queens := [1, 6, 4, 2, 0, 5, 3],
    column := [1, 1, 1, 1, 1, 1, 1],
    diagonal_up := [1, 1, 1, 1, 1, 1, 1, 1, 1, 1, 1, 1, 1],
    diagonal_down := [1, 1, 1, 1, 1, 1, 1, 1, 1, 1, 1, 1, 1],
    col_j := 0, placements := 156, solutions := 11 }

/-- Snapshot of the 7-queens search after top-level rows 0–2. -/
def b7s3 : Board :=
  { n_size := 7, queens := [2, 6, 3, 1, 4, 1, 5],
    column := [1, 1, 1, 1, 1, 1, 1],
    diagonal_up := [1, 1, 1, 1, 1, 1, 1, 1, 1, 1, 1, 1, 1],
    diagonal_down := [1, 1, 1, 1, 1, 1, 1, 1, 1, 1, 1, 1, 1],
    col_j := 0, placements := 236, solutions := 17 }

/-- Snapshot of the 7-queens search after top-level rows 0–3. -/
def b7s4 : Board :=
  { n_size := 7, queens := [3, 6, 4, 2, 5, 5, 2],
    column := [1, 1, 1, 1, 1, 1, 1],
    diagonal_up := [1, 1, 1, 1, 1, 1, 1, 1, 1, 1, 1, 1, 1],
    diagonal_down := [1, 1, 1, 1, 1, 1, 1, 1, 1, 1, 1, 1, 1],
    col_j := 0, placements := 315, solutions := 23 }

/-- Snapshot of the 7-queens search after top-level rows 0–4. -/
def b7s5 : Board :=
  { n_size := 7, queens := [4, 6, 3, 5, 2, 5, 3],
    column := [1, 1, 1, 1, 1, 1, 1],
    diagonal_up := [1, 1, 1, 1, 1, 1, 1, 1, 1, 1, 1, 1, 1],
    diagonal_down := [1, 1, 1, 1, 1, 1, 1, 1, 1, 1, 1, 1, 1],
    col_j := 0, placements := 395, solutions := 29 }

/-- Snapshot of the 7-queens search after top-level rows 0–5. -/
def b7s6 : Board :=
  { n_size := 7, queens := [5, 3, 6, 4, 2, 4, 1],
    column := [1, 1, 1, 1, 1, 1, 1],
    diagonal_up := [1, 1, 1, 1, 1, 1, 1, 1, 1, 1, 1, 1, 1],
    diagonal_down := [1, 1, 1, 1, 1, 1, 1, 1, 1, 1, 1, 1, 1],
    col_j := 0, placements := 479, solutions := 36 }

/-- Final state of the 7-queens search (all top-level rows 0–6). -/
def b7s7 : Board :=
  { n_size := 7, queens := [6, 4, 2, 5, 3, 3, 1],
    column := [1, 1, 1, 1, 1, 1, 1],
    diagonal_up := [1, 1, 1, 1, 1, 1, 1, 1, 1, 1, 1, 1, 1],
    diagonal_down := [1, 1, 1, 1, 1, 1, 1, 1, 1, 1, 1, 1, 1],
    col_j := 0, placements := 551, solutions := 40 }

/-- Snapshot of the 8-queens search after the top-level row loop has
processed row 0. -/
def b8s1 : Board :=
  { n_size := 8, queens := [0, 7, 5, 2, 6, 1, 3, 2],
    column := [1, 1, 1, 1, 1, 1, 1, 1],
    diagonal_up := [1, 1, 1, 1, 1, 1, 1, 1, 1, 1, 1, 1, 1, 1, 1],
    diagonal_down := [1, 1, 1, 1, 1, 1, 1, 1, 1, 1, 1, 1, 1, 1, 1],
    col_j := 0, placements := 227, solutions := 4 }

/-- Snapshot of the 8-queens search after top-level rows 0–1. -/
def b8s2 : Board :=
  { n_size := 8, queens := [1, 7, 5, 3, 6, 4, 6, 3],
    column := [1, 1, 1, 1, 1, 1, 1, 1],
    diagonal_up := [1, 1, 1, 1, 1, 1, 1, 1, 1, 1, 1, 1, 1, 1, 1],
    diagonal_down := [1, 1, 1, 1, 1, 1, 1, 1, 1, 1, 1, 1, 1, 1, 1],
    col_j := 0, placements := 492, solutions := 12 }

/-- Snapshot of the 8-queens search after top-level rows 0–2. -/
def b8s3 : Board :=
  { n_size := 8, queens := [2, 7, 5, 3, 1, 6, 4, 4],
    column := [1, 1, 1, 1, 1, 1, 1, 1],
    diagonal_up := [1, 1, 1, 1, 1, 1, 1, 1, 1, 1, 1, 1, 1, 1, 1],
    diagonal_down := [1, 1, 1, 1, 1, 1, 1, 1, 1, 1, 1, 1, 1, 1, 1],
    col_j := 0, placements := 757, solutions := 28 }

/-- Snapshot of the 8-queens search after top-level rows 0–3. -/
def b8s4 : Board :=
  { n_size := 8, queens := [3, 7, 4, 2, 5, 6, 1, 5],
    column := [1, 1, 1, 1, 1, 1, 1, 1],
    diagonal_up := [1, 1, 1, 1, 1, 1, 1, 1, 1, 1, 1, 1, 1, 1, 1],
    diagonal_down := [1, 1, 1, 1, 1, 1, 1, 1, 1, 1, 1, 1, 1, 1, 1],
    col_j := 0, placements := 1028, solutions := 46 }

/-- Snapshot of the 8-queens search after top-level rows 0–4. -/
def b8s5 : Board :=
  { n_size := 8, queens := [4, 7, 5, 3, 6, 0, 3, 2],
    column := [1, 1, 1, 1, 1, 1, 1, 1],
    diagonal_up := [1, 1, 1, 1, 1, 1, 1, 1, 1, 1, 1, 1, 1, 1, 1],
    diagonal_down := [1, 1, 1, 1, 1, 1, 1, 1, 1, 1, 1, 1, 1, 1, 1],
    col_j := 0, placements := 1299, solutions := 64 }

/-- Snapshot of the 8-queens search after top-level rows 0–5. -/
def b8s6 : Board :=
  { n_size := 8, queens := [5, 7, 4, 6, 3, 2, 4, 2],
    column := [1, 1, 1, 1, 1, 1, 1, 1],
    diagonal_up := [1, 1, 1, 1, 1, 1, 1, 1, 1, 1, 1, 1, 1, 1, 1],
    diagonal_down := [1, 1, 1, 1, 1, 1, 1, 1, 1, 1, 1, 1, 1, 1, 1],
    col_j := 0, placements := 1564, solutions := 80 }

/-- Snapshot of the 8-queens search after top-level rows 0–6. -/
def b8s7 : Board :=
  { n_size := 8, queens := [6, 4, 7, 5, 3, 2, 2, 3],
    column := [1, 1, 1, 1, 1, 1, 1, 1],
    diagonal_up := [1, 1, 1, 1, 1, 1, 1, 1, 1, 1, 1, 1, 1, 1, 1],
    diagonal_down := [1, 1, 1, 1, 1, 1, 1, 1, 1, 1, 1, 1, 1, 1, 1],
    col_j := 0, placements := 1829, solutions := 88 }

/-- Final state of the 8-queens search (all top-level rows 0–7). -/
def b8s8 : Board :=
  { n_size := 8, queens := [7, 5, 3, 6, 4, 4, 2, 4],
    column := [1, 1, 1, 1, 1, 1, 1, 1],
    diagonal_up := [1, 1, 1, 1, 1, 1, 1, 1, 1, 1, 1, 1, 1, 1, 1],
    diagonal_down := [1, 1, 1, 1, 1, 1, 1, 1, 1, 1, 1, 1, 1, 1, 1],
    col_j := 0, placements := 2056, solutions := 92 }

lemma sameState_refl (b : Board) : SameState b b :=
  ⟨rfl, rfl, rfl, rfl, rfl⟩

lemma sameState_trans {a b c : Board} (h1 : SameState a b) (h2 : SameState b c) :
    SameState a c :=
  ⟨h1.1.trans h2.1, h1.2.1.trans h2.2.1, h1.2.2.1.trans h2.2.2.1,
   h1.2.2.2.1.trans h2.2.2.2.1, h1.2.2.2.2.trans h2.2.2.2.2⟩

lemma boolBoard_of_sameState {b1 b2 : Board} (h : SameState b1 b2)
    (hb : BoolBoard b2) : BoolBoard b1 := by
  obtain ⟨-, -, hcl, hu, hd⟩ := h
  exact ⟨hcl ▸ hb.1, hu ▸ hb.2.1, hd ▸ hb.2.2⟩

lemma boolList_getD_le_one {l : List Nat} (hb : BoolList l) (i : Nat) :
    l.getD i 0 ≤ 1 := by
  induction l generalizing i with
  | nil => simp [List.getD_nil]
  | cons a t ih =>
    cases i with
    | zero => exact hb a (List.mem_cons_self a t)
    | succ j =>
      rw [List.getD_cons_succ]
      exact ih (fun x hx => hb x (List.mem_cons_of_mem a hx)) j

lemma boolList_set {l : List Nat} {v : Nat} (hb : BoolList l) (hv : v ≤ 1)
    (i : Nat) : BoolList (l.set i v) := by
  intro x hx
  rcases List.mem_or_eq_of_mem_set hx with h | h
  · exact hb x h
  · exact h ▸ hv

lemma set_of_getD_one : ∀ (l : List Nat) (i : Nat), l.getD i 0 = 1 → l.set i 1 = l := by
  intro l
  induction l with
  | nil => intro i _; rfl
  | cons a t ih =>
    intro i hi
    cases i with
    | zero => rw [List.getD_cons_zero] at hi; simp [List.set, hi]
    | succ j => rw [List.getD_cons_succ] at hi; simp [List.set, ih j hi]

lemma land3_eq_one {x y z : Nat} (hx : x ≤ 1) (hy : y ≤ 1) (hz : z ≤ 1)
    (h : (x &&& y) &&& z ≠ 0) : x = 1 ∧ y = 1 ∧ z = 1 := by
  interval_cases x <;> interval_cases y <;> interval_cases z <;> revert h <;> decide

lemma square_is_free_entries {b : Board} {r : Nat} (hb : BoolBoard b)
    (hf : square_is_free b r ≠ 0) :
    b.column.getD r 0 = 1 ∧
    b.diagonal_up.getD (b.n_size - 1 + b.col_j - r) 0 = 1 ∧
    b.diagonal_down.getD (b.col_j + r) 0 = 1 := by
  obtain ⟨hcl, hu, hd⟩ := hb
  simp only [square_is_free] at hf
  exact land3_eq_one (boolList_getD_le_one hcl r)
    (boolList_getD_le_one hu (b.n_size - 1 + b.col_j - r))
    (boolList_getD_le_one hd (b.col_j + r)) hf

lemma set_queen_boolBoard {b : Board} (r : Nat) (hb : BoolBoard b) :
    BoolBoard (set_queen b r) :=
  ⟨boolList_set hb.1 (Nat.zero_le 1) r,
   boolList_set hb.2.1 (Nat.zero_le 1) (b.n_size - 1 + b.col_j - r),
   boolList_set hb.2.2 (Nat.zero_le 1) (b.col_j + r)⟩

/-- Backtracking pair: once `set_queen b r` ran on a free square and the
intervening computation left size, column and conflict arrays untouched,
`remove_queen _ r` restores them to their values in `b`. -/
lemma remove_queen_restores (b : Board) (r : Nat) (hb : BoolBoard b)
    (hf : square_is_free b r ≠ 0) (b2 : Board)
    (h2 : SameState b2 (set_queen b r)) :
    SameState (remove_queen b2 r) b := by
  obtain ⟨hx1, hy1, hz1⟩ := square_is_free_entries hb hf
  obtain ⟨hn, hc, hcl, hu, hd⟩ := h2
  simp only [set_queen] at hn hc hcl hu hd
  refine ⟨?_, ?_, ?_, ?_, ?_⟩
  · simpa [remove_queen] using hn
  · simp [remove_queen, hc]
  · rw [show (remove_queen b2 r).column = b2.column.set r 1 from Eq.refl _,
       hcl, List.set_set, set_of_getD_one b.column r hx1]
  · rw [show (remove_queen b2 r).diagonal_up
        = b2.diagonal_up.set (b2.n_size - 1 + (b2.col_j - 1) - r) 1 from Eq.refl _,
       hu, hn, hc, Nat.add_sub_cancel,
       List.set_set, set_of_getD_one b.diagonal_up _ hy1]
  · rw [show (remove_queen b2 r).diagonal_down
        = b2.diagonal_down.set (b2.col_j - 1 + r) 1 from Eq.refl _,
       hd, hc, Nat.add_sub_cancel,
       List.set_set, set_of_getD_one b.diagonal_down _ hz1]

lemma rowStep_sameState (rec : Board → Board)
    (hrec : ∀ b, BoolBoard b → SameState (rec b) b)
    (b : Board) (r : Nat) (hb : BoolBoard b) :
    SameState (rowStep rec b r) b := by
  by_cases hf : square_is_free b r ≠ 0
  · simp only [rowStep, if_pos hf]
    refine remove_queen_restores b r hb hf _ ?_
    by_cases hfull : (set_queen b r).col_j = (set_queen b r).n_size
    · simp only [if_pos hfull]; exact ⟨rfl, rfl, rfl, rfl, rfl⟩
    · simp only [if_neg hfull]; exact hrec _ (set_queen_boolBoard r hb)
  · simp only [rowStep, if_neg hf]
    exact sameState_refl b

lemma foldl_rowStep_sameState (rec : Board → Board)
    (hrec : ∀ b, BoolBoard b → SameState (rec b) b) :
    ∀ (rows : List Nat) (b : Board), BoolBoard b →
      SameState (rows.foldl (rowStep rec) b) b := by
  intro rows
  induction rows with
  | nil => intro b _; exact sameState_refl b
  | cons r rest ih =>
    intro b hb
    have hstep : SameState (rowStep rec b r) b := rowStep_sameState rec hrec b r hb
    have hbb : BoolBoard (rowStep rec b r) := boolBoard_of_sameState hstep hb
    exact sameState_trans (ih (rowStep rec b r) hbb) hstep

/-- The search as a whole leaves size, current column and all conflict
arrays exactly as it found them: every placement is matched by exactly
one removal. -/
lemma place_next_queen_sameState :
    ∀ (fuel : Nat) (b : Board), BoolBoard b →
      SameState (place_next_queen fuel b) b := by
  intro fuel
  induction fuel with
  | zero => intro b _; exact sameState_refl b
  | succ f ih =>
    intro b hb
    simpa only [place_next_queen] using
      foldl_rowStep_sameState (place_next_queen f) ih (List.range b.n_size) b hb

/-- Congruence of the row loop in the recursion functional: two bodies
that agree wherever the search can actually call them (one column
deeper, still inside the board) yield the same loop result. -/
lemma foldl_rowStep_congr (rec1 rec2 : Board → Board) (c n : Nat)
    (hrec1 : ∀ b, BoolBoard b → SameState (rec1 b) b)
    (hagree : ∀ b, BoolBoard b → b.col_j = c + 1 → b.n_size = n →
      b.col_j < b.n_size → rec1 b = rec2 b) :
    ∀ (rows : List Nat) (b : Board), BoolBoard b → b.col_j = c →
      b.n_size = n → b.col_j < b.n_size →
      rows.foldl (rowStep rec1) b = rows.foldl (rowStep rec2) b := by
  intro rows
  induction rows with
  | nil => intro b _ _ _ _; rfl
  | cons r rest ih =>
    intro b hb hcol hn hlt
    have hstep : rowStep rec1 b r = rowStep rec2 b r := by
      by_cases hf : square_is_free b r ≠ 0
      · simp only [rowStep, if_pos hf]
        by_cases hfull : (set_queen b r).col_j = (set_queen b r).n_size
        · simp only [if_pos hfull]
        · simp only [if_neg hfull]
          have hb1 : BoolBoard (set_queen b r) := set_queen_boolBoard r hb
          have hc1 : (set_queen b r).col_j = c + 1 := by simp [set_queen, hcol]
          have hn1 : (set_queen b r).n_size = n := by simp [set_queen, hn]
          have hlt1 : (set_queen b r).col_j < (set_queen b r).n_size := by
            have : (set_queen b r).col_j = b.col_j + 1 := by simp [set_queen]
            have h2 : (set_queen b r).n_size = b.n_size := by simp [set_queen]
            omega
          rw [hagree (set_queen b r) hb1 hc1 hn1 hlt1]
      · simp only [rowStep, if_neg hf]
    have hbb : BoolBoard (rowStep rec1 b r) :=
      boolBoard_of_sameState (rowStep_sameState rec1 hrec1 b r hb) hb
    have hsame := rowStep_sameState rec1 hrec1 b r hb
    calc (r :: rest).foldl (rowStep rec1) b
        = rest.foldl (rowStep rec1) (rowStep rec1 b r) := by rw [List.foldl_cons]
      _ = rest.foldl (rowStep rec2) (rowStep rec1 b r) := by
            exact ih (rowStep rec1 b r) hbb (hsame.2.1.trans hcol)
              (hsame.1.trans hn) (by rw [hsame.2.1, hsame.1]; exact hlt)
      _ = (r :: rest).foldl (rowStep rec2) b := by rw [List.foldl_cons, hstep]

/-- Fuel adequacy: any two fuel values large enough for the remaining
columns make `place_next_queen` compute the same result, so the fuel
`n_size` used by `solve` is not an artifact of the embedding. -/
lemma place_next_queen_fuel_agree :
    ∀ (f1 : Nat), ∀ (f2 : Nat) (b : Board), BoolBoard b →
      b.col_j < b.n_size → b.n_size ≤ b.col_j + f1 + 1 →
      b.n_size ≤ b.col_j + f2 + 1 →
      place_next_queen (f1 + 1) b = place_next_queen (f2 + 1) b := by
  intro f1
  induction f1 with
  | zero =>
    intro f2 b hb hlt h1 h2
    simp only [place_next_queen]
    refine foldl_rowStep_congr (place_next_queen 0) (place_next_queen f2)
      b.col_j b.n_size (place_next_queen_sameState 0) ?_
      (List.range b.n_size) b hb rfl rfl hlt
    intro b' _ hc' hn' hlt'
    omega
  | succ f ih =>
    intro f2 b hb hlt h1 h2
    cases f2 with
    | zero =>
      simp only [place_next_queen]
      refine foldl_rowStep_congr (place_next_queen (f + 1)) (place_next_queen 0)
        b.col_j b.n_size (place_next_queen_sameState (f + 1)) ?_
        (List.range b.n_size) b hb rfl rfl hlt
      intro b' _ hc' hn' hlt'
      omega
    | succ f2' =>
      simp only [place_next_queen]
      refine foldl_rowStep_congr (place_next_queen (f + 1)) (place_next_queen (f2' + 1))
        b.col_j b.n_size (place_next_queen_sameState (f + 1)) ?_
        (List.range b.n_size) b hb rfl rfl hlt
      intro b' hb' hc' hn' hlt'
      exact ih f2' b' hb' hlt' (by omega) (by omega)

lemma fresh_board_boolBoard (n : Nat) : BoolBoard (fresh_board n) := by
  refine ⟨?_, ?_, ?_⟩ <;>
    exact fun x hx => (List.eq_of_mem_replicate hx) ▸ Nat.le_refl 1

lemma fresh_board_valid (n : Nat) (h : 1 ≤ n) : ValidBoard (fresh_board n) := by
  refine ⟨h, ?_, ?_, ?_, ?_, Nat.zero_le n, fresh_board_boolBoard n⟩ <;>
    simp [fresh_board]

/-- The search result on a fresh board does not depend on the fuel as
long as it is at least the board size: `solve` is the C search. -/
lemma solve_fuel_independent (n f : Nat) (h1 : 1 ≤ n) (hf : n ≤ f) :
    place_next_queen f (fresh_board n) = solve n := by
  obtain ⟨f', rfl⟩ : ∃ f', f = f' + 1 := ⟨f - 1, by omega⟩
  obtain ⟨n', rfl⟩ : ∃ n', n = n' + 1 := ⟨n - 1, by omega⟩
  exact place_next_queen_fuel_agree f' n' (fresh_board (n' + 1))
    (fresh_board_boolBoard (n' + 1)) (by simp [fresh_board])
    (by simp [fresh_board]; omega) (by simp [fresh_board])

/-- C2: after the top-level search on a freshly created board of any
size ≥ 1, the board state is fully restored: `col_j` equals 0 and every
entry of the column, up-diagonal and down-diagonal arrays is free (1)
again — every placement was matched by exactly one removal. -/
theorem search_restores_fresh_board (n : Nat) (h : 1 ≤ n) :
    (solve n).col_j = 0 ∧
    (solve n).column = List.replicate n 1 ∧
    (solve n).diagonal_up = List.replicate (2 * n - 1) 1 ∧
    (solve n).diagonal_down = List.replicate (2 * n - 1) 1 := by
  have hs := place_next_queen_sameState n (fresh_board n) (fresh_board_boolBoard n)
  exact ⟨hs.2.1, hs.2.2.1, hs.2.2.2.1, hs.2.2.2.2⟩

/-- Witness for `search_restores_fresh_board` at size 4. -/
theorem search_restores_fresh_board_witness :
    1 ≤ 4 ∧
    ((solve 4).col_j = 0 ∧
     (solve 4).column = List.replicate 4 1 ∧
     (solve 4).diagonal_up = List.replicate (2 * 4 - 1) 1 ∧
     (solve 4).diagonal_down = List.replicate (2 * 4 - 1) 1) :=
  ⟨by decide, search_restores_fresh_board 4 (by decide)⟩

/-- C5: `remove_queen` is the paired inverse of `set_queen`: for any
0/1 board and any row for which the square is free, placing and then
removing restores `col_j` and the column and diagonal arrays (and the
size and solution count); only `placements` and the stale `queens`
entry at the old current column differ. -/
theorem remove_queen_inverts_set_queen (b : Board) (r : Nat)
    (hb : BoolBoard b) (hf : square_is_free b r ≠ 0) :
    (remove_queen (set_queen b r) r).col_j = b.col_j ∧
    (remove_queen (set_queen b r) r).column = b.column ∧
    (remove_queen (set_queen b r) r).diagonal_up = b.diagonal_up ∧
    (remove_queen (set_queen b r) r).diagonal_down = b.diagonal_down ∧
    (remove_queen (set_queen b r) r).n_size = b.n_size ∧
    (remove_queen (set_queen b r) r).solutions = b.solutions ∧
    (remove_queen (set_queen b r) r).queens = b.queens.set b.col_j r ∧
    (remove_queen (set_queen b r) r).placements = b.placements + 1 := by
  have hs := remove_queen_restores b r hb hf (set_queen b r) (sameState_refl _)
  exact ⟨hs.2.1, hs.2.2.1, hs.2.2.2.1, hs.2.2.2.2, hs.1, rfl, rfl, rfl⟩

/-- Witness for `remove_queen_inverts_set_queen` on the fresh 4-board
at row 0. -/
theorem remove_queen_inverts_set_queen_witness :
    BoolBoard (fresh_board 4) ∧ square_is_free (fresh_board 4) 0 ≠ 0 ∧
    ((remove_queen (set_queen (fresh_board 4) 0) 0).col_j = (fresh_board 4).col_j ∧
     (remove_queen (set_queen (fresh_board 4) 0) 0).column = (fresh_board 4).column ∧
     (remove_queen (set_queen (fresh_board 4) 0) 0).diagonal_up = (fresh_board 4).diagonal_up ∧
     (remove_queen (set_queen (fresh_board 4) 0) 0).diagonal_down = (fresh_board 4).diagonal_down ∧
     (remove_queen (set_queen (fresh_board 4) 0) 0).n_size = (fresh_board 4).n_size ∧
     (remove_queen (set_queen (fresh_board 4) 0) 0).solutions = (fresh_board 4).solutions ∧
     (remove_queen (set_queen (fresh_board 4) 0) 0).queens
       = (fresh_board 4).queens.set (fresh_board 4).col_j 0 ∧
     (remove_queen (set_queen (fresh_board 4) 0) 0).placements
       = (fresh_board 4).placements + 1) :=
  ⟨fresh_board_boolBoard 4, by decide,
   remove_queen_inverts_set_queen (fresh_board 4) 0 (fresh_board_boolBoard 4) (by decide)⟩

/-- C6: `square_is_free` is a pure query (a function of the board alone,
mutating nothing), and on a validly constructed board with `row` in
`[0, size)` it is non-zero exactly when the row entry, the up-diagonal
entry at `(size - 1) + (col_j - row)` and the down-diagonal entry at
`col_j + row` are all currently free (1). -/
theorem square_is_free_characterization (b : Board) (r : Nat)
    (hv : ValidBoard b) (hr : r < b.n_size) :
    square_is_free b r ≠ 0 ↔
      (b.column.getD r 0 = 1 ∧
       b.diagonal_up.getD (b.n_size - 1 + b.col_j - r) 0 = 1 ∧
       b.diagonal_down.getD (b.col_j + r) 0 = 1) := by
  constructor
  · exact fun hf => square_is_free_entries hv.2.2.2.2.2.2 hf
  · rintro ⟨h1, h2, h3⟩
    simp only [square_is_free, h1, h2, h3]
    decide

/-- Witness for `square_is_free_characterization` on the fresh 4-board
at row 2. -/
theorem square_is_free_characterization_witness :
    ValidBoard (fresh_board 4) ∧ 2 < (fresh_board 4).n_size ∧
    (square_is_free (fresh_board 4) 2 ≠ 0 ↔
      ((fresh_board 4).column.getD 2 0 = 1 ∧
       (fresh_board 4).diagonal_up.getD
         ((fresh_board 4).n_size - 1 + (fresh_board 4).col_j - 2) 0 = 1 ∧
       (fresh_board 4).diagonal_down.getD ((fresh_board 4).col_j + 2) 0 = 1)) :=
  ⟨fresh_board_valid 4 (by decide), by decide,
   square_is_free_characterization (fresh_board 4) 2
     (fresh_board_valid 4 (by decide)) (by decide)⟩

/-- C7: on a validly constructed board with `col_j < n_size` — the only
states in which the recursive search reads or writes — every access of
`square_is_free`, `set_queen` and `remove_queen` is in bounds: the row
index is below the column-array length, both diagonal indices are below
the `2 * n_size - 1` array lengths, `col_j` is below the queens-array
length, and the `Nat`-modelled up-diagonal index agrees with the C
`int` expression `(n_size - 1) + (col_j - row)` (which is, in
particular, non-negative). -/
theorem search_accesses_in_bounds (b : Board) (r : Nat) (hv : ValidBoard b)
    (hc : b.col_j < b.n_size) (hr : r < b.n_size) :
    r < b.column.length ∧
    b.n_size - 1 + b.col_j - r < b.diagonal_up.length ∧
    b.col_j + r < b.diagonal_down.length ∧
    b.col_j < b.queens.length ∧
    ((b.n_size : Int) - 1) + ((b.col_j : Int) - (r : Int))
      = ((b.n_size - 1 + b.col_j - r : Nat) : Int) := by
  obtain ⟨h1, hq, hcl, hu, hd, -, -⟩ := hv
  refine ⟨?_, ?_, ?_, ?_, ?_⟩
  · rw [hcl]; omega
  · rw [hu]; omega
  · rw [hd]; omega
  · rw [hq]; omega
  · omega

/-- Witness for `search_accesses_in_bounds` on the fresh 4-board at
row 2. -/
theorem search_accesses_in_bounds_witness :
    ValidBoard (fresh_board 4) ∧ (fresh_board 4).col_j < (fresh_board 4).n_size ∧
    2 < (fresh_board 4).n_size ∧
    (2 < (fresh_board 4).column.length ∧
     (fresh_board 4).n_size - 1 + (fresh_board 4).col_j - 2
       < (fresh_board 4).diagonal_up.length ∧
     (fresh_board 4).col_j + 2 < (fresh_board 4).diagonal_down.length ∧
     (fresh_board 4).col_j < (fresh_board 4).queens.length ∧
     (((fresh_board 4).n_size : Int) - 1) +
         (((fresh_board 4).col_j : Int) - (2 : Int))
       = (((fresh_board 4).n_size - 1 + (fresh_board 4).col_j - 2 : Nat) : Int)) :=
  ⟨fresh_board_valid 4 (by decide), by decide, by decide,
   search_accesses_in_bounds (fresh_board 4) 2
     (fresh_board_valid 4 (by decide)) (by decide) (by decide)⟩

/-- C9: `solve` is deterministic — it is a pure function of `size`, so
two runs on the same size yield identical (placements, solutions)
pairs. -/
theorem solve_deterministic (n : Nat) (h : 1 ≤ n) :
    ((solve n).placements, (solve n).solutions)
      = ((solve n).placements, (solve n).solutions) := rfl

/-- Witness for `solve_deterministic` at size 4. -/
theorem solve_deterministic_witness :
    1 ≤ 4 ∧
    ((solve 4).placements, (solve 4).solutions)
      = ((solve 4).placements, (solve 4).solutions) :=
  ⟨by decide, solve_deterministic 4 (by decide)⟩

/-- C10: any command-line argument whose `atoi` value is below 1 —
non-numeric arguments yield 0 — is rejected by the `n_queens < 1` check
inside board construction: the process exits with `EXIT_FAILURE` and
writes no line to standard output (the error-stream content is the
fallen-through pair of messages of `allocation_error 0`). -/
theorem invalid_argument_rejected_by_core (s : String) (h : atoi s < 1) :
    run_main [s] = ⟨[], (allocation_error 0).1, 1⟩ := by
  show run_with (atoi s) = _
  unfold run_with initialize_board
  rw [if_pos h]
  rfl

/-- Witness for `invalid_argument_rejected_by_core` on the non-numeric
argument "abc". -/
theorem invalid_argument_rejected_by_core_witness :
    atoi "abc" < 1 ∧ run_main ["abc"] = ⟨[], (allocation_error 0).1, 1⟩ :=
  ⟨by decide, invalid_argument_rejected_by_core "abc" (by decide)⟩

/-- C3 (code behaviour at the failing input): for size below 1 the
missing `break` in `case 0` of `allocation_error` makes the run write
TWO messages to the error stream — the invalid-size message and the
board-allocation message — before exiting with `EXIT_FAILURE` and no
standard-output line; the spec's single-message requirement is
violated. -/
theorem invalid_size_produces_two_messages :
    initialize_board 0 =
      Except.error (["The number of queens must be greater than 0.\n",
                     "Failed to allocate memory for chess board.\n"], 1) ∧
    run_main ["0"] =
      ⟨[], ["The number of queens must be greater than 0.\n",
            "Failed to allocate memory for chess board.\n"], 1⟩ ∧
    (allocation_error 0).1.length = 2 :=
  ⟨rfl, rfl, rfl⟩

set_option maxRecDepth 1000000 in
set_option maxHeartbeats 1000000 in
/-- C4 counterexample: the program's actual 4-queens run needs 16 queen
placements, not 38, so the claimed output line is not produced. -/
theorem four_queens_placements_counterexample :
    ¬ ((solve 4).placements = 38 ∧ (solve 4).solutions = 2 ∧
       print_counts (solve 4) =
         "The 4-Queens problem required 38 queen placements to find all 2 solutions\n") := by
  decide

set_option maxRecDepth 1000000 in
set_option maxHeartbeats 1000000 in
/-- C4 amended: for input size 4 the program terminates with exactly 16
placements and 2 solutions, producing the output line
"The 4-Queens problem required 16 queen placements to find all 2
solutions". -/
theorem four_queens_placements_amended :
    (solve 4).placements = 16 ∧ (solve 4).solutions = 2 ∧
    print_counts (solve 4) =
      "The 4-Queens problem required 16 queen placements to find all 2 solutions\n" ∧
    run_main ["4"] =
      ⟨["The 4-Queens problem required 16 queen placements to find all 2 solutions\n"],
       [], 0⟩ := by
  refine ⟨by decide, by decide, by decide, by decide⟩

set_option maxRecDepth 1000000 in
set_option maxHeartbeats 2000000 in
lemma solve7_row0 : rowStep (place_next_queen 6) (fresh_board 7) 0 = b7s1 := by decide

set_option maxRecDepth 1000000 in
set_option maxHeartbeats 2000000 in
lemma solve7_row1 : rowStep (place_next_queen 6) b7s1 1 = b7s2 := by decide

set_option maxRecDepth 1000000 in
set_option maxHeartbeats 2000000 in
lemma solve7_row2 : rowStep (place_next_queen 6) b7s2 2 = b7s3 := by decide

set_option maxRecDepth 1000000 in
set_option maxHeartbeats 2000000 in
lemma solve7_row3 : rowStep (place_next_queen 6) b7s3 3 = b7s4 := by decide

set_option maxRecDepth 1000000 in
set_option maxHeartbeats 2000000 in
lemma solve7_row4 : rowStep (place_next_queen 6) b7s4 4 = b7s5 := by decide

set_option maxRecDepth 1000000 in
set_option maxHeartbeats 2000000 in
lemma solve7_row5 : rowStep (place_next_queen 6) b7s5 5 = b7s6 := by decide

set_option maxRecDepth 1000000 in
set_option maxHeartbeats 2000000 in
lemma solve7_row6 : rowStep (place_next_queen 6) b7s6 6 = b7s7 := by decide

lemma solve7_eq : solve 7 = b7s7 := by
  show (List.range 7).foldl (rowStep (place_next_queen 6)) (fresh_board 7) = b7s7
  rw [show List.range 7 = [0, 1, 2, 3, 4, 5, 6] from rfl,
     List.foldl_cons, solve7_row0, List.foldl_cons, solve7_row1,
     List.foldl_cons, solve7_row2, List.foldl_cons, solve7_row3,
     List.foldl_cons, solve7_row4, List.foldl_cons, solve7_row5,
     List.foldl_cons, solve7_row6, List.foldl_nil]

set_option maxRecDepth 1000000 in
set_option maxHeartbeats 2000000 in
lemma solve8_row0 : rowStep (place_next_queen 7) (fresh_board 8) 0 = b8s1 := by decide

set_option maxRecDepth 1000000 in
set_option maxHeartbeats 2000000 in
lemma solve8_row1 : rowStep (place_next_queen 7) b8s1 1 = b8s2 := by decide

set_option maxRecDepth 1000000 in
set_option maxHeartbeats 2000000 in
lemma solve8_row2 : rowStep (place_next_queen 7) b8s2 2 = b8s3 := by decide

set_option maxRecDepth 1000000 in
set_option maxHeartbeats 2000000 in
lemma solve8_row3 : rowStep (place_next_queen 7) b8s3 3 = b8s4 := by decide

set_option maxRecDepth 1000000 in
set_option maxHeartbeats 2000000 in
lemma solve8_row4 : rowStep (place_next_queen 7) b8s4 4 = b8s5 := by decide

set_option maxRecDepth 1000000 in
set_option maxHeartbeats 2000000 in
lemma solve8_row5 : rowStep (place_next_queen 7) b8s5 5 = b8s6 := by decide

set_option maxRecDepth 1000000 in
set_option maxHeartbeats 2000000 in
lemma solve8_row6 : rowStep (place_next_queen 7) b8s6 6 = b8s7 := by decide

set_option maxRecDepth 1000000 in
set_option maxHeartbeats 2000000 in
lemma solve8_row7 : rowStep (place_next_queen 7) b8s7 7 = b8s8 := by decide

lemma solve8_eq : solve 8 = b8s8 := by
  show (List.range 8).foldl (rowStep (place_next_queen 7)) (fresh_board 8) = b8s8
  rw [show List.range 8 = [0, 1, 2, 3, 4, 5, 6, 7] from rfl,
     List.foldl_cons, solve8_row0, List.foldl_cons, solve8_row1,
     List.foldl_cons, solve8_row2, List.foldl_cons, solve8_row3,
     List.foldl_cons, solve8_row4, List.foldl_cons, solve8_row5,
     List.foldl_cons, solve8_row6, List.foldl_cons, solve8_row7, List.foldl_nil]

set_option maxRecDepth 1000000 in
set_option maxHeartbeats 2000000 in
/-- C1: for every size in the reference table, the search from a
freshly created board yields the established n-queens solution counts:
1 → 1, 2 → 0, 3 → 0, 4 → 2, 5 → 10, 6 → 4, 7 → 40, 8 → 92. -/
theorem solution_counts_match_reference :
    (solve 1).solutions = 1 ∧ (solve 2).solutions = 0 ∧
    (solve 3).solutions = 0 ∧ (solve 4).solutions = 2 ∧
    (solve 5).solutions = 10 ∧ (solve 6).solutions = 4 ∧
    (solve 7).solutions = 40 ∧ (solve 8).solutions = 92 :=
  ⟨by decide, by decide, by decide, by decide,
   by decide, by decide, by rw [solve7_eq]; rfl, by rw [solve8_eq]; rfl⟩

end NQueens
